import Mathlib

/-!
Shallow embedding of src/jam_g19_colors.py.

The script talks to a Logitech G19 keyboard over HID.  We model the HID
library surface (pywinusb) as data: each fallible primitive of a device or
report is recorded in a field of type Except String _ (an .error value means
the corresponding Python call raises an exception with that message; an .ok
value is the returned data).  Python byte buffers are lists of Int (bytearray
item assignment demands 0 <= v < 256 and raises ValueError otherwise, which
the model reproduces).  Every print site that a claim can observe gets its own
Msg constructor carrying the dynamic parts of the printed line; purely static
header lines of the inspection dump are elided.  The functions return outcome
records that additionally count device.open and device.close calls and record
each buffer passed to HidReport.send, so resource and transmission claims are
statable.
-/

namespace JamG19

/-- Constants from lines 17-27 of jam_g19_colors.py. -/
def LOGITECH_VENDOR_ID : Nat := 0x046d

def G19_PRODUCT_ID : Nat := 0xc229

def LIGHTING_REPORT_ID : Nat := 7

def RED_BYTE_INDEX : Nat := 1

def GREEN_BYTE_INDEX : Nat := 2

def BLUE_BYTE_INDEX : Nat := 3

/-- Module-level flag, line 29: initialized False and never assigned again. -/
def verbose : Bool := false

/-- One HID report as the script sees it: its numeric id, the behaviour of
get_raw_data (line 131: may raise, may return an empty or non-empty byte
list), the behaviour of the len(report) call (lines 135 and 150: may raise),
and the behaviour of send (line 189: may raise). -/
structure HidReport where
  report_id : Nat
  raw_data : Except String (List Int)
  declared_len : Except String Nat
  send_res : Except String Unit

/-- One HID device: identity pair plus the behaviour of open (may raise) and
of the three report-enumeration calls (each may raise). -/
structure HidDevice where
  vendor_id : Nat
  product_id : Nat
  open_res : Except String Unit
  feature_reports : Except String (List HidReport)
  output_reports : Except String (List HidReport)
  input_reports : Except String (List HidReport)

/-- Messages printed by the script; constructors carry the dynamic data of
the corresponding print call.  The extra WinError line (line 198) is folded
into the exception string of setColorError. -/
inductive Msg where
  | reportInfo (reportId size : Nat)
  | inspectError (e : String)
  | reportNotFound (reportId : Nat)
  | suggestInspect
  | emptyRawCreatingBuffer (size : Nat)
  | noRawNoSize
  | errorGettingRaw (e : String)
  | cannotDetermineSize
  | criticalSizeError (e : String)
  | offsetsOutOfRange (i j k : Nat) (size : Nat)
  | verboseSending (r g b : Int)
  | verboseBuffer (buf : List Int)
  | colorSent
  | setColorError (e : String)
deriving DecidableEq, Repr

/-- The exception message of a Python bytearray item assignment with a value
outside the byte range. -/
def byteRangeError : String := "byte must be in range(0, 256)"

/-- True exactly when device.open() succeeds in this model. -/
def openSucceeds (device : HidDevice) : Bool :=
  match device.open_res with
  | .ok _ => true
  | .error _ => false

/-- find_g19, lines 33-49: scan all devices, return the first whose
(vendor, product) pair matches the constants; None when no device matches.
The found-device print carries no claim-relevant data and is elided. -/
def find_g19 (all_devices : List HidDevice) : Option HidDevice :=
  all_devices.find? (fun device =>
    device.vendor_id == LOGITECH_VENDOR_ID && device.product_id == G19_PRODUCT_ID)

/-- Outcome of inspect_reports: whether open succeeded, how many close calls
ran, and the printed lines. -/
structure InspectOutcome where
  opened : Bool
  closes : Nat
  msgs : List Msg

/-- One kind-specific loop of inspect_reports (lines 64-77): print id and
raw-data length per report, stopping with the exception of the first report
whose get_raw_data raises. -/
def inspectLoop : List HidReport → List Msg × Option String
  | [] => ([], none)
  | report :: rest =>
    match report.raw_data with
    | .error e => ([], some e)
    | .ok raw =>
      (Msg.reportInfo report.report_id raw.length :: (inspectLoop rest).1,
        (inspectLoop rest).2)

/-- Enumeration of one report kind: the find_xxx_reports call itself may
raise, otherwise loop over its result. -/
def inspectKind (res : Except String (List HidReport)) : List Msg × Option String :=
  match res with
  | .error e => ([], some e)
  | .ok reports => inspectLoop reports

/-- The try-block body of inspect_reports after a successful open, lines
61-81: feature, then output, then input reports; the first exception aborts
the rest and is printed by the except handler (line 81). -/
def inspectBody (device : HidDevice) : List Msg :=
  match (inspectKind device.feature_reports).2 with
  | some e => (inspectKind device.feature_reports).1 ++ [Msg.inspectError e]
  | none =>
    match (inspectKind device.output_reports).2 with
    | some e =>
      (inspectKind device.feature_reports).1 ++ (inspectKind device.output_reports).1 ++
        [Msg.inspectError e]
    | none =>
      match (inspectKind device.input_reports).2 with
      | some e =>
        (inspectKind device.feature_reports).1 ++ (inspectKind device.output_reports).1 ++
          (inspectKind device.input_reports).1 ++ [Msg.inspectError e]
      | none =>
        (inspectKind device.feature_reports).1 ++ (inspectKind device.output_reports).1 ++
          (inspectKind device.input_reports).1

/-- inspect_reports, lines 51-84.  If open raises, the except handler prints
the error and the finally block skips close (is_opened is false).  If open
succeeds, the body runs (any exception printed by the handler) and the
finally block closes exactly once. -/
def inspect_reports (device : HidDevice) : InspectOutcome :=
  match device.open_res with
  | .error e => { opened := false, closes := 0, msgs := [Msg.inspectError e] }
  | .ok _ => { opened := true, closes := 1, msgs := inspectBody device }

/-- Outcome of set_color: the boolean return, whether open succeeded, how
many close calls ran, the buffers passed to send in order, and the printed
lines. -/
structure SetColorOutcome where
  ret : Bool
  opened : Bool
  closes : Nat
  sent : List (List Int)
  msgs : List Msg

/-- bytearray(report_size) followed by buffer[0] = LIGHTING_REPORT_ID
(lines 138-139 and 156-160). -/
def freshBuffer (report_size : Nat) : List Int :=
  (List.replicate report_size (0 : Int)).set 0 (LIGHTING_REPORT_ID : Int)

/-- The except-handler fallback of buffer acquisition, lines 146-163: print
the get_raw_data error, then try len(target_report); a raise there hits the
inner handler (line 161) and fails, a non-positive size fails with its own
message, otherwise allocate and tag a fresh buffer. -/
inductive BufAcq where
  | gotBuf (buf : List Int) (msgs : List Msg)
  | fail (msgs : List Msg)

def acquire_fallback (target_report : HidReport) (e_get : String) : BufAcq :=
  match target_report.declared_len with
  | .error e_size => .fail [Msg.errorGettingRaw e_get, Msg.criticalSizeError e_size]
  | .ok report_size =>
    if report_size ≤ 0 then
      .fail [Msg.errorGettingRaw e_get, Msg.cannotDetermineSize]
    else
      .gotBuf (freshBuffer report_size) [Msg.errorGettingRaw e_get]

/-- Buffer acquisition, lines 127-163.  A successful non-empty get_raw_data
is reused as the buffer.  An empty result reads len(target_report) still
inside the inner try: a positive size allocates a tagged fresh buffer, a
non-positive size fails (line 141), and a raising len call lands in the
except handler exactly as a raising get_raw_data does. -/
def acquire_buffer (target_report : HidReport) : BufAcq :=
  match target_report.raw_data with
  | .error e_get => acquire_fallback target_report e_get
  | .ok raw_data =>
    if raw_data.isEmpty then
      match target_report.declared_len with
      | .error e_get => acquire_fallback target_report e_get
      | .ok report_size =>
        if report_size > 0 then
          .gotBuf (freshBuffer report_size) [Msg.emptyRawCreatingBuffer report_size]
        else
          .fail [Msg.noRawNoSize]
    else
      .gotBuf raw_data []

/-- Lines 166-192: bounds-check the three color offsets, perform the three
bytearray item assignments (each raises ValueError on a value outside
[0, 256), caught by the outer handler of set_color), optionally print the
verbose dump, then send the buffer; a raising send is caught by the outer
handler after the send call was made.  Returns (return value, sent buffers,
printed lines). -/
def patch_and_send (target_report : HidReport) (buffer : List Int)
    (acq_msgs : List Msg) (r g b : Int) (vflag : Bool) :
    Bool × List (List Int) × List Msg :=
  if RED_BYTE_INDEX < buffer.length ∧ GREEN_BYTE_INDEX < buffer.length ∧
      BLUE_BYTE_INDEX < buffer.length then
    if 0 ≤ r ∧ r < 256 then
      let buffer1 := buffer.set RED_BYTE_INDEX r
      if 0 ≤ g ∧ g < 256 then
        let buffer2 := buffer1.set GREEN_BYTE_INDEX g
        if 0 ≤ b ∧ b < 256 then
          let buffer3 := buffer2.set BLUE_BYTE_INDEX b
          let vmsgs := cond vflag
            [Msg.verboseSending r g b, Msg.verboseBuffer buffer3] []
          match target_report.send_res with
          | .ok _ => (true, [buffer3], acq_msgs ++ vmsgs ++ [Msg.colorSent])
          | .error e => (false, [buffer3], acq_msgs ++ vmsgs ++ [Msg.setColorError e])
        else (false, [], acq_msgs ++ [Msg.setColorError byteRangeError])
      else (false, [], acq_msgs ++ [Msg.setColorError byteRangeError])
    else (false, [], acq_msgs ++ [Msg.setColorError byteRangeError])
  else
    (false, [], acq_msgs ++ [Msg.offsetsOutOfRange RED_BYTE_INDEX GREEN_BYTE_INDEX
      BLUE_BYTE_INDEX buffer.length])

/-- Lines 127-192 as one piece: acquire the buffer for the located target
report (a .fail acquisition already returned false inside the inner logic),
then patch and send. -/
def after_target (target_report : HidReport) (r g b : Int) (vflag : Bool) :
    Bool × List (List Int) × List Msg :=
  match acquire_buffer target_report with
  | .fail ms => (false, [], ms)
  | .gotBuf buffer ms => patch_and_send target_report buffer ms r g b vflag

/-- The try-block body of set_color after a successful open, lines 105-192.
A raising find_feature_reports propagates to the outer handler (line 194).
Only feature reports are searched for the lighting id; the output-report
search of lines 112-117 is commented out in the source and has no model. -/
def set_color_opened (device : HidDevice) (r g b : Int) (vflag : Bool) :
    Bool × List (List Int) × List Msg :=
  match device.feature_reports with
  | .error e => (false, [], [Msg.setColorError e])
  | .ok feature_reports =>
    match feature_reports.find? (fun report => report.report_id == LIGHTING_REPORT_ID) with
    | none => (false, [], [Msg.reportNotFound LIGHTING_REPORT_ID, Msg.suggestInspect])
    | some target_report => after_target target_report r g b vflag

/-- set_color with the verbose flag passed explicitly (the source reads the
module global).  If open raises, the outer handler prints the error and the
finally block skips close; otherwise the body runs and the finally block
(lines 200-203) closes exactly once. -/
def set_colorWith (device : HidDevice) (r g b : Int) (vflag : Bool) : SetColorOutcome :=
  match device.open_res with
  | .error e =>
    { ret := false, opened := false, closes := 0, sent := [],
      msgs := [Msg.setColorError e] }
  | .ok _ =>
    { ret := (set_color_opened device r g b vflag).1, opened := true, closes := 1,
      sent := (set_color_opened device r g b vflag).2.1,
      msgs := (set_color_opened device r g b vflag).2.2 }

/-- set_color, lines 86-203, reading the module-level verbose flag. -/
def set_color (device : HidDevice) (r g b : Int) : SetColorOutcome :=
  set_colorWith device r g b verbose

/-- The first feature report of the device whose id is LIGHTING_REPORT_ID,
when the enumeration succeeds: the target_report of lines 105-109. -/
def target_of (device : HidDevice) : Option HidReport :=
  match device.feature_reports with
  | .error _ => none
  | .ok feature_reports =>
    feature_reports.find? (fun report => report.report_id == LIGHTING_REPORT_ID)

/-- Outcome of main, lines 208-262: the sys.exit status, the number of
device.open attempts, close calls, sent buffers and set_color or
inspect_reports prints (the progress prints of main itself are elided). -/
structure MainOutcome where
  exitCode : Nat
  opens : Nat
  closes : Nat
  sent : List (List Int)
  msgs : List Msg

/-- main after successful argument parsing (argparse enforces the 0-255
choices; r, g, b reach this point already validated when invoked from the
command line).  No device found exits 1 without opening anything; inspect
mode runs the inspector and exits 0; otherwise set_color decides exit 0 or
1. -/
def main (all_devices : List HidDevice) (r g b : Int) (inspect : Bool) : MainOutcome :=
  match find_g19 all_devices with
  | none => { exitCode := 1, opens := 0, closes := 0, sent := [], msgs := [] }
  | some g19_device =>
    if inspect then
      { exitCode := 0, opens := 1, closes := (inspect_reports g19_device).closes,
        sent := [], msgs := (inspect_reports g19_device).msgs }
    else
      { exitCode := if (set_color g19_device r g b).ret then 0 else 1, opens := 1,
        closes := (set_color g19_device r g b).closes,
        sent := (set_color g19_device r g b).sent,
        msgs := (set_color g19_device r g b).msgs }

/-! Helper lemmas shared by several claim proofs. -/

/-- A successful open routes set_colorWith through the body and one close. -/
theorem set_colorWith_open_ok (device : HidDevice) (r g b : Int) (vflag : Bool)
    (hopen : device.open_res = .ok ()) :
    set_colorWith device r g b vflag =
      { ret := (set_color_opened device r g b vflag).1, opened := true, closes := 1,
        sent := (set_color_opened device r g b vflag).2.1,
        msgs := (set_color_opened device r g b vflag).2.2 } := by
  unfold set_colorWith
  rw [hopen]

/-- With a successful open and a located target report, set_colorWith is the
after_target body wrapped with one close. -/
theorem set_colorWith_target (device : HidDevice) (r g b : Int) (vflag : Bool)
    (target_report : HidReport)
    (hopen : device.open_res = .ok ())
    (htarget : target_of device = some target_report) :
    set_colorWith device r g b vflag =
      { ret := (after_target target_report r g b vflag).1, opened := true, closes := 1,
        sent := (after_target target_report r g b vflag).2.1,
        msgs := (after_target target_report r g b vflag).2.2 } := by
  rw [set_colorWith_open_ok device r g b vflag hopen]
  unfold target_of at htarget
  unfold set_color_opened
  cases hf : device.feature_reports with
  | error e => rw [hf] at htarget; exact absurd htarget (by simp)
  | ok feats =>
    rw [hf] at htarget
    dsimp only at htarget ⊢
    rw [htarget]

/-- Claim C2: every invocation of set_color or inspect_reports closes the
device exactly once when open succeeded, and performs no close when open
raised (the device was never successfully opened). -/
theorem device_closed_exactly_once (device : HidDevice) (r g b : Int) :
    ((set_color device r g b).closes = if openSucceeds device then 1 else 0)
    ∧ ((set_color device r g b).opened = openSucceeds device)
    ∧ ((inspect_reports device).closes = if openSucceeds device then 1 else 0)
    ∧ ((inspect_reports device).opened = openSucceeds device) := by
  unfold set_color set_colorWith inspect_reports openSucceeds
  cases device.open_res <;> simp

/-- Claim C4: the process exit status is 0 exactly when a device matched and
either inspection mode was requested or set_color returned true; it is 1
exactly when no device matched or set_color returned false; and when no
device matches no open is ever attempted. -/
theorem main_exit_codes (all_devices : List HidDevice) (r g b : Int) (inspect : Bool) :
    ((main all_devices r g b inspect).exitCode = 0 ↔
      ∃ d, find_g19 all_devices = some d ∧
        (inspect = true ∨ (set_color d r g b).ret = true))
    ∧ ((main all_devices r g b inspect).exitCode = 1 ↔
      (find_g19 all_devices = none ∨
        ∃ d, find_g19 all_devices = some d ∧ inspect = false ∧
          (set_color d r g b).ret = false))
    ∧ (find_g19 all_devices = none → (main all_devices r g b inspect).opens = 0) := by
  unfold main
  cases h : find_g19 all_devices with
  | none => simp
  | some d =>
    cases inspect with
    | true => simp
    | false => cases hr : (set_color d r g b).ret <;> simp [hr]

/-- The two prints of the verbose hex-dump branch, lines 184-187. -/
def Msg.isDump : Msg → Bool
  | .verboseSending .. => true
  | .verboseBuffer _ => true
  | _ => false

theorem inspectLoop_no_dump (reports : List HidReport) :
    ∀ m ∈ (inspectLoop reports).1, Msg.isDump m = false := by
  induction reports with
  | nil => intro m hm; simp [inspectLoop] at hm
  | cons report rest ih =>
    intro m hm
    unfold inspectLoop at hm
    cases h : report.raw_data with
    | error e => rw [h] at hm; simp at hm
    | ok raw =>
      rw [h] at hm
      dsimp only at hm
      rcases List.mem_cons.mp hm with h1 | h2
      · subst h1; rfl
      · exact ih m h2

theorem inspectKind_no_dump (res : Except String (List HidReport)) :
    ∀ m ∈ (inspectKind res).1, Msg.isDump m = false := by
  cases res with
  | error e => intro m hm; simp [inspectKind] at hm
  | ok reports => intro m hm; exact inspectLoop_no_dump reports m hm

theorem inspectBody_no_dump (device : HidDevice) :
    ∀ m ∈ inspectBody device, Msg.isDump m = false := by
  intro m hm
  unfold inspectBody at hm
  split at hm
  · rcases List.mem_append.mp hm with h | h
    · exact inspectKind_no_dump _ m h
    · simp at h; subst h; rfl
  · split at hm
    · rcases List.mem_append.mp hm with h | h
      · rcases List.mem_append.mp h with h2 | h2
        · exact inspectKind_no_dump _ m h2
        · exact inspectKind_no_dump _ m h2
      · simp at h; subst h; rfl
    · split at hm
      · rcases List.mem_append.mp hm with h | h
        · rcases List.mem_append.mp h with h2 | h2
          · rcases List.mem_append.mp h2 with h3 | h3
            · exact inspectKind_no_dump _ m h3
            · exact inspectKind_no_dump _ m h3
          · exact inspectKind_no_dump _ m h2
        · simp at h; subst h; rfl
      · rcases List.mem_append.mp hm with h | h
        · rcases List.mem_append.mp h with h2 | h2
          · exact inspectKind_no_dump _ m h2
          · exact inspectKind_no_dump _ m h2
        · exact inspectKind_no_dump _ m h

/-- The messages produced while acquiring a buffer, in either constructor. -/
def BufAcq.msgsOf : BufAcq → List Msg
  | .gotBuf _ ms => ms
  | .fail ms => ms

theorem acquire_msgs_no_dump (target_report : HidReport) :
    ∀ m ∈ (acquire_buffer target_report).msgsOf, Msg.isDump m = false := by
  obtain ⟨rid, raw, dlen, sres⟩ := target_report
  cases raw with
  | error e =>
    cases dlen with
    | error e2 => simp [acquire_buffer, acquire_fallback, BufAcq.msgsOf, Msg.isDump]
    | ok sz => cases sz with
      | zero => simp [acquire_buffer, acquire_fallback, BufAcq.msgsOf, Msg.isDump]
      | succ n => simp [acquire_buffer, acquire_fallback, BufAcq.msgsOf, Msg.isDump]
  | ok rawl =>
    cases rawl with
    | nil =>
      cases dlen with
      | error e2 => simp [acquire_buffer, acquire_fallback, BufAcq.msgsOf, Msg.isDump]
      | ok sz => cases sz with
        | zero => simp [acquire_buffer, acquire_fallback, BufAcq.msgsOf, Msg.isDump]
        | succ n => simp [acquire_buffer, acquire_fallback, BufAcq.msgsOf, Msg.isDump]
    | cons x xs => simp [acquire_buffer, BufAcq.msgsOf]

theorem after_target_no_dump (target_report : HidReport) (r g b : Int) :
    ∀ m ∈ (after_target target_report r g b false).2.2, Msg.isDump m = false := by
  intro m hm
  have hacq := acquire_msgs_no_dump target_report
  unfold after_target at hm
  cases h : acquire_buffer target_report with
  | fail ms =>
    rw [h] at hm hacq
    exact hacq m hm
  | gotBuf buffer ms =>
    rw [h] at hm hacq
    unfold BufAcq.msgsOf at hacq
    unfold patch_and_send at hm
    simp only [Bool.cond_false] at hm
    by_cases h1 : RED_BYTE_INDEX < buffer.length ∧ GREEN_BYTE_INDEX < buffer.length ∧
        BLUE_BYTE_INDEX < buffer.length
    · rw [if_pos h1] at hm
      by_cases h2 : 0 ≤ r ∧ r < 256
      · rw [if_pos h2] at hm
        by_cases h3 : 0 ≤ g ∧ g < 256
        · rw [if_pos h3] at hm
          by_cases h4 : 0 ≤ b ∧ b < 256
          · rw [if_pos h4] at hm
            cases hs : target_report.send_res with
            | ok u =>
              rw [hs] at hm
              simp at hm
              rcases hm with hm | hm
              · exact hacq m hm
              · subst hm; rfl
            | error e =>
              rw [hs] at hm
              simp at hm
              rcases hm with hm | hm
              · exact hacq m hm
              · subst hm; rfl
          · rw [if_neg h4] at hm
            simp at hm
            rcases hm with hm | hm
            · exact hacq m hm
            · subst hm; rfl
        · rw [if_neg h3] at hm
          simp at hm
          rcases hm with hm | hm
          · exact hacq m hm
          · subst hm; rfl
      · rw [if_neg h2] at hm
        simp at hm
        rcases hm with hm | hm
        · exact hacq m hm
        · subst hm; rfl
    · rw [if_neg h1] at hm
      simp at hm
      rcases hm with hm | hm
      · exact hacq m hm
      · subst hm; rfl

theorem set_color_opened_no_dump (device : HidDevice) (r g b : Int) :
    ∀ m ∈ (set_color_opened device r g b false).2.2, Msg.isDump m = false := by
  intro m hm
  unfold set_color_opened at hm
  cases hf : device.feature_reports with
  | error e => rw [hf] at hm; simp at hm; subst hm; rfl
  | ok feats =>
    rw [hf] at hm
    dsimp only at hm
    cases hfind : feats.find? (fun report => report.report_id == LIGHTING_REPORT_ID) with
    | none =>
      rw [hfind] at hm
      simp at hm
      rcases hm with hm | hm <;> (subst hm; rfl)
    | some target_report =>
      rw [hfind] at hm
      exact after_target_no_dump target_report r g b m hm

/-- Claim C9: the module-level verbose flag is False, nothing assigns it, and
so the verbose hex-dump branch of set_color never prints on any invocation
through the entry point. -/
theorem verbose_dump_never_printed (all_devices : List HidDevice) (r g b : Int)
    (inspect : Bool) :
    verbose = false ∧
      ((main all_devices r g b inspect).msgs).all (fun m => !Msg.isDump m) = true := by
  refine ⟨rfl, ?_⟩
  rw [List.all_eq_true]
  intro x hx
  rw [Bool.not_eq_true']
  revert hx
  unfold main
  cases h : find_g19 all_devices with
  | none => intro hx; simp at hx
  | some d =>
    cases inspect with
    | true =>
      intro hx
      simp only [if_true] at hx
      unfold inspect_reports at hx
      cases ho : d.open_res with
      | error e => rw [ho] at hx; simp at hx; subst hx; rfl
      | ok u => rw [ho] at hx; exact inspectBody_no_dump d x hx
    | false =>
      intro hx
      simp only [Bool.false_eq_true, if_false] at hx
      unfold set_color set_colorWith verbose at hx
      cases ho : d.open_res with
      | error e => rw [ho] at hx; simp at hx; subst hx; rfl
      | ok u => rw [ho] at hx; exact set_color_opened_no_dump d r g b x hx

/-- Claim C5: with an opened device whose feature reports carry no identifier
equal to 7, set_color prints the error naming the missing identifier plus the
inspect hint, returns false without raising, sends nothing, and its result
ignores the output and input reports entirely (they are never searched). -/
theorem set_color_report_missing (device : HidDevice) (r g b : Int)
    (feats : List HidReport)
    (hopen : device.open_res = .ok ())
    (hfeats : device.feature_reports = .ok feats)
    (hnone : ∀ report ∈ feats, report.report_id ≠ LIGHTING_REPORT_ID) :
    (set_color device r g b).ret = false
    ∧ (set_color device r g b).sent = []
    ∧ (set_color device r g b).msgs =
        [Msg.reportNotFound LIGHTING_REPORT_ID, Msg.suggestInspect]
    ∧ ∀ outs ins,
        set_color { device with output_reports := outs, input_reports := ins } r g b
          = set_color device r g b := by
  have hfind : feats.find? (fun report => report.report_id == LIGHTING_REPORT_ID) = none := by
    rw [List.find?_eq_none]
    intro x hx
    simpa using hnone x hx
  have hmain : set_color device r g b =
      { ret := false, opened := true, closes := 1, sent := [],
        msgs := [Msg.reportNotFound LIGHTING_REPORT_ID, Msg.suggestInspect] } := by
    unfold set_color
    rw [set_colorWith_open_ok device r g b verbose hopen]
    unfold set_color_opened
    rw [hfeats]
    dsimp only
    rw [hfind]
  exact ⟨by rw [hmain], by rw [hmain], by rw [hmain], fun outs ins => rfl⟩

/-- Claim C6: when the acquired buffer is too short for the three color
offsets, set_color prints the error naming the offsets and the buffer size,
returns false, and never calls send. -/
theorem set_color_offsets_out_of_range (device : HidDevice) (r g b : Int)
    (target_report : HidReport) (buffer : List Int) (ams : List Msg)
    (hopen : device.open_res = .ok ())
    (htarget : target_of device = some target_report)
    (hacq : acquire_buffer target_report = .gotBuf buffer ams)
    (hlen : ¬(RED_BYTE_INDEX < buffer.length ∧ GREEN_BYTE_INDEX < buffer.length ∧
        BLUE_BYTE_INDEX < buffer.length)) :
    (set_color device r g b).ret = false
    ∧ (set_color device r g b).sent = []
    ∧ Msg.offsetsOutOfRange RED_BYTE_INDEX GREEN_BYTE_INDEX BLUE_BYTE_INDEX
        buffer.length ∈ (set_color device r g b).msgs := by
  have hps : patch_and_send target_report buffer ams r g b verbose =
      (false, [], ams ++ [Msg.offsetsOutOfRange RED_BYTE_INDEX GREEN_BYTE_INDEX
        BLUE_BYTE_INDEX buffer.length]) := by
    unfold patch_and_send
    rw [if_neg hlen]
  unfold set_color
  rw [set_colorWith_target device r g b verbose target_report hopen htarget]
  unfold after_target
  rw [hacq]
  dsimp only
  rw [hps]
  exact ⟨rfl, rfl, by simp⟩

/-- Claim C10: calling set_color directly with a component outside [0, 255]
after a buffer was resolved and bounds-checked makes the bytearray item
assignment raise; the outer handler catches it, so set_color returns false
without raising and without sending, and the finally block still closes the
device. -/
theorem set_color_component_out_of_range (device : HidDevice) (r g b : Int)
    (target_report : HidReport) (buffer : List Int) (ams : List Msg)
    (hopen : device.open_res = .ok ())
    (htarget : target_of device = some target_report)
    (hacq : acquire_buffer target_report = .gotBuf buffer ams)
    (hbounds : RED_BYTE_INDEX < buffer.length ∧ GREEN_BYTE_INDEX < buffer.length ∧
        BLUE_BYTE_INDEX < buffer.length)
    (hout : ¬(0 ≤ r ∧ r < 256) ∨ ¬(0 ≤ g ∧ g < 256) ∨ ¬(0 ≤ b ∧ b < 256)) :
    (set_color device r g b).ret = false
    ∧ (set_color device r g b).sent = []
    ∧ (set_color device r g b).closes = 1
    ∧ Msg.setColorError byteRangeError ∈ (set_color device r g b).msgs := by
  have hps : patch_and_send target_report buffer ams r g b verbose =
      (false, [], ams ++ [Msg.setColorError byteRangeError]) := by
    unfold patch_and_send
    rw [if_pos hbounds]
    by_cases hr : 0 ≤ r ∧ r < 256
    · rw [if_pos hr]
      by_cases hg : 0 ≤ g ∧ g < 256
      · rw [if_pos hg]
        by_cases hbv : 0 ≤ b ∧ b < 256
        · rcases hout with h | h | h <;> contradiction
        · rw [if_neg hbv]
      · rw [if_neg hg]
    · rw [if_neg hr]
  unfold set_color
  rw [set_colorWith_target device r g b verbose target_report hopen htarget]
  unfold after_target
  rw [hacq]
  dsimp only
  rw [hps]
  exact ⟨rfl, rfl, rfl, by simp⟩

/-! Case lemmas for acquire_buffer, one per path of lines 127-163. -/

theorem acquire_buffer_live (t : HidReport) (raw : List Int)
    (he : t.raw_data = .ok raw) (hne : raw ≠ []) :
    acquire_buffer t = .gotBuf raw [] := by
  unfold acquire_buffer
  rw [he]
  dsimp only
  rw [if_neg (by simp [List.isEmpty_eq_true, hne])]

theorem acquire_buffer_empty_pos (t : HidReport) (sz : Nat)
    (he : t.raw_data = .ok []) (hd : t.declared_len = .ok sz) (hpos : 0 < sz) :
    acquire_buffer t = .gotBuf (freshBuffer sz) [Msg.emptyRawCreatingBuffer sz] := by
  unfold acquire_buffer
  rw [he]
  dsimp only
  rw [if_pos (by simp), hd]
  dsimp only
  rw [if_pos hpos]

theorem acquire_buffer_empty_zero (t : HidReport)
    (he : t.raw_data = .ok []) (hd : t.declared_len = .ok 0) :
    acquire_buffer t = .fail [Msg.noRawNoSize] := by
  unfold acquire_buffer
  rw [he]
  dsimp only
  rw [if_pos (by simp), hd]
  dsimp only
  rw [if_neg (by omega)]

theorem acquire_buffer_error_pos (t : HidReport) (e : String) (sz : Nat)
    (he : t.raw_data = .error e) (hd : t.declared_len = .ok sz) (hpos : 0 < sz) :
    acquire_buffer t = .gotBuf (freshBuffer sz) [Msg.errorGettingRaw e] := by
  unfold acquire_buffer acquire_fallback
  rw [he]
  dsimp only
  rw [hd]
  dsimp only
  rw [if_neg (by omega)]

theorem acquire_buffer_error_zero (t : HidReport) (e : String)
    (he : t.raw_data = .error e) (hd : t.declared_len = .ok 0) :
    acquire_buffer t = .fail [Msg.errorGettingRaw e, Msg.cannotDetermineSize] := by
  unfold acquire_buffer acquire_fallback
  rw [he]
  dsimp only
  rw [hd]
  dsimp only
  rw [if_pos (Nat.le_refl 0)]

theorem acquire_buffer_error_error (t : HidReport) (e e2 : String)
    (he : t.raw_data = .error e) (hd : t.declared_len = .error e2) :
    acquire_buffer t = .fail [Msg.errorGettingRaw e, Msg.criticalSizeError e2] := by
  unfold acquire_buffer acquire_fallback
  rw [he]
  dsimp only
  rw [hd]

theorem acquire_buffer_empty_len_error (t : HidReport) (e2 : String)
    (he : t.raw_data = .ok []) (hd : t.declared_len = .error e2) :
    acquire_buffer t = .fail [Msg.errorGettingRaw e2, Msg.criticalSizeError e2] := by
  unfold acquire_buffer acquire_fallback
  rw [he]
  dsimp only
  rw [if_pos (by simp), hd]

/-- The acquisition messages survive as a prefix of the final message list in
every continuation of patch_and_send. -/
theorem patch_and_send_msgs_carry (target_report : HidReport) (buffer : List Int)
    (ams : List Msg) (r g b : Int) (vflag : Bool) (m : Msg) (hm : m ∈ ams) :
    m ∈ (patch_and_send target_report buffer ams r g b vflag).2.2 := by
  unfold patch_and_send
  split_ifs <;> (cases target_report.send_res <;> simp [hm])

/-- The wrapped set_color outcome once the target is found and the buffer
acquisition result is known to be gotBuf. -/
theorem set_color_gotBuf (device : HidDevice) (r g b : Int)
    (target_report : HidReport) (buffer : List Int) (ams : List Msg)
    (hopen : device.open_res = .ok ())
    (htarget : target_of device = some target_report)
    (hacq : acquire_buffer target_report = .gotBuf buffer ams) :
    set_color device r g b =
      { ret := (patch_and_send target_report buffer ams r g b verbose).1,
        opened := true, closes := 1,
        sent := (patch_and_send target_report buffer ams r g b verbose).2.1,
        msgs := (patch_and_send target_report buffer ams r g b verbose).2.2 } := by
  unfold set_color
  rw [set_colorWith_target device r g b verbose target_report hopen htarget]
  unfold after_target
  rw [hacq]

/-- The wrapped set_color outcome when buffer acquisition fails. -/
theorem set_color_failBuf (device : HidDevice) (r g b : Int)
    (target_report : HidReport) (ams : List Msg)
    (hopen : device.open_res = .ok ())
    (htarget : target_of device = some target_report)
    (hacq : acquire_buffer target_report = .fail ams) :
    set_color device r g b =
      { ret := false, opened := true, closes := 1, sent := [], msgs := ams } := by
  unfold set_color
  rw [set_colorWith_target device r g b verbose target_report hopen htarget]
  unfold after_target
  rw [hacq]

/-- Claim C7: an empty snapshot with a declared length of zero fails before
any buffer is allocated, with only the no-data-no-size error printed; a
raising retrieval prints the retrieval error and falls back to the same
allocate-and-tag buffer (declared length, offset 0 set to 7) when the
declared length is positive, and fails with the distinct
cannot-determine-size error when the declared length is zero. -/
theorem set_color_buffer_fallbacks (device : HidDevice) (r g b : Int)
    (target_report : HidReport)
    (hopen : device.open_res = .ok ())
    (htarget : target_of device = some target_report) :
    ((target_report.raw_data = .ok [] ∧ target_report.declared_len = .ok 0) →
      acquire_buffer target_report = .fail [Msg.noRawNoSize]
      ∧ (set_color device r g b).ret = false
      ∧ (set_color device r g b).sent = []
      ∧ (set_color device r g b).msgs = [Msg.noRawNoSize])
    ∧ (∀ e, target_report.raw_data = .error e →
        (Msg.errorGettingRaw e ∈ (set_color device r g b).msgs)
        ∧ (∀ sz, target_report.declared_len = .ok sz → 0 < sz →
            acquire_buffer target_report =
              .gotBuf (freshBuffer sz) [Msg.errorGettingRaw e]
            ∧ (freshBuffer sz)[0]? = some (LIGHTING_REPORT_ID : Int))
        ∧ (target_report.declared_len = .ok 0 →
            (set_color device r g b).ret = false
            ∧ (set_color device r g b).sent = []
            ∧ (set_color device r g b).msgs =
                [Msg.errorGettingRaw e, Msg.cannotDetermineSize])) := by
  constructor
  · rintro ⟨he, hd⟩
    have hacq := acquire_buffer_empty_zero target_report he hd
    have hmain := set_color_failBuf device r g b target_report _ hopen htarget hacq
    exact ⟨hacq, by rw [hmain], by rw [hmain], by rw [hmain]⟩
  · intro e he
    refine ⟨?_, ?_, ?_⟩
    · cases hd : target_report.declared_len with
      | error e2 =>
        have hacq := acquire_buffer_error_error target_report e e2 he hd
        have hmain := set_color_failBuf device r g b target_report _ hopen htarget hacq
        rw [hmain]
        simp
      | ok sz =>
        cases sz with
        | zero =>
          have hacq := acquire_buffer_error_zero target_report e he hd
          have hmain := set_color_failBuf device r g b target_report _ hopen htarget hacq
          rw [hmain]
          simp
        | succ n =>
          have hacq := acquire_buffer_error_pos target_report e (n + 1) he hd (Nat.succ_pos n)
          have hmain := set_color_gotBuf device r g b target_report _ _ hopen htarget hacq
          rw [hmain]
          exact patch_and_send_msgs_carry target_report _ _ r g b verbose _ (by simp)
    · intro sz hd hpos
      refine ⟨acquire_buffer_error_pos target_report e sz he hd hpos, ?_⟩
      unfold freshBuffer
      rw [List.getElem?_set_eq_of_lt]
      rw [List.length_replicate]
      exact hpos
    · intro hd
      have hacq := acquire_buffer_error_zero target_report e he hd
      have hmain := set_color_failBuf device r g b target_report _ hopen htarget hacq
      exact ⟨by rw [hmain], by rw [hmain], by rw [hmain]⟩

/-- Claim C8: with a matched device, inspection mode always exits with
status 0; the close step still runs exactly when open succeeded, and a
raising report enumeration is printed as a diagnostic before closing. -/
theorem inspect_mode_exits_zero (all_devices : List HidDevice) (r g b : Int)
    (g19_device : HidDevice)
    (hfound : find_g19 all_devices = some g19_device) :
    (main all_devices r g b true).exitCode = 0
    ∧ ((main all_devices r g b true).closes =
        if openSucceeds g19_device then 1 else 0)
    ∧ (∀ e, g19_device.open_res = .ok () → g19_device.feature_reports = .error e →
        Msg.inspectError e ∈ (main all_devices r g b true).msgs) := by
  have hmain : main all_devices r g b true =
      { exitCode := 0, opens := 1, closes := (inspect_reports g19_device).closes,
        sent := [], msgs := (inspect_reports g19_device).msgs } := by
    unfold main
    rw [hfound]
    simp
  refine ⟨by rw [hmain], ?_, ?_⟩
  · rw [hmain]
    unfold inspect_reports openSucceeds
    cases g19_device.open_res <;> simp
  · intro e ho hfe
    rw [hmain]
    unfold inspect_reports
    rw [ho]
    dsimp only
    unfold inspectBody inspectKind
    rw [hfe]
    simp

/-- Claim C3: a live 32-byte snapshot for report 7 gets exactly offsets 1, 2
and 3 overwritten with the supplied in-range values, every other byte is
carried over from the snapshot, the patched buffer is sent exactly once, and
set_color returns true. -/
theorem set_color_snapshot32_end_to_end (device : HidDevice) (r g b : Int)
    (target_report : HidReport) (raw : List Int)
    (hopen : device.open_res = .ok ())
    (htarget : target_of device = some target_report)
    (hraw : target_report.raw_data = .ok raw)
    (hlen : raw.length = 32)
    (hsend : target_report.send_res = .ok ())
    (hr : 0 ≤ r ∧ r < 256) (hg : 0 ≤ g ∧ g < 256) (hb : 0 ≤ b ∧ b < 256) :
    (set_color device r g b).ret = true
    ∧ (set_color device r g b).sent =
        [((raw.set RED_BYTE_INDEX r).set GREEN_BYTE_INDEX g).set BLUE_BYTE_INDEX b]
    ∧ (((raw.set RED_BYTE_INDEX r).set GREEN_BYTE_INDEX g).set
        BLUE_BYTE_INDEX b).length = 32
    ∧ (((raw.set RED_BYTE_INDEX r).set GREEN_BYTE_INDEX g).set
        BLUE_BYTE_INDEX b)[RED_BYTE_INDEX]? = some r
    ∧ (((raw.set RED_BYTE_INDEX r).set GREEN_BYTE_INDEX g).set
        BLUE_BYTE_INDEX b)[GREEN_BYTE_INDEX]? = some g
    ∧ (((raw.set RED_BYTE_INDEX r).set GREEN_BYTE_INDEX g).set
        BLUE_BYTE_INDEX b)[BLUE_BYTE_INDEX]? = some b
    ∧ ∀ i, i ≠ RED_BYTE_INDEX → i ≠ GREEN_BYTE_INDEX → i ≠ BLUE_BYTE_INDEX →
        (((raw.set RED_BYTE_INDEX r).set GREEN_BYTE_INDEX g).set
          BLUE_BYTE_INDEX b)[i]? = raw[i]? := by
  have hne : raw ≠ [] := by
    intro hnil
    rw [hnil] at hlen
    simp at hlen
  have hbounds : RED_BYTE_INDEX < raw.length ∧ GREEN_BYTE_INDEX < raw.length ∧
      BLUE_BYTE_INDEX < raw.length := by
    refine ⟨?_, ?_, ?_⟩ <;>
      simp [RED_BYTE_INDEX, GREEN_BYTE_INDEX, BLUE_BYTE_INDEX, hlen]
  have hacq := acquire_buffer_live target_report raw hraw hne
  have hmain := set_color_gotBuf device r g b target_report raw [] hopen htarget hacq
  have hps : patch_and_send target_report raw [] r g b verbose =
      (true, [((raw.set RED_BYTE_INDEX r).set GREEN_BYTE_INDEX g).set BLUE_BYTE_INDEX b],
        [Msg.colorSent]) := by
    unfold patch_and_send verbose
    rw [if_pos hbounds, if_pos hr, if_pos hg, if_pos hb, hsend]
    simp
  refine ⟨by rw [hmain, hps], by rw [hmain, hps], ?_, ?_, ?_, ?_, ?_⟩
  · simp [List.length_set, hlen]
  · rw [List.getElem?_set_ne (by simp [BLUE_BYTE_INDEX, RED_BYTE_INDEX]),
      List.getElem?_set_ne (by simp [GREEN_BYTE_INDEX, RED_BYTE_INDEX]),
      List.getElem?_set_eq_of_lt r hbounds.1]
  · rw [List.getElem?_set_ne (by simp [BLUE_BYTE_INDEX, GREEN_BYTE_INDEX]),
      List.getElem?_set_eq_of_lt g (by simp [List.length_set, hbounds.2.1])]
  · rw [List.getElem?_set_eq_of_lt b (by simp [List.length_set, hbounds.2.2])]
  · intro i h1 h2 h3
    rw [List.getElem?_set_ne (fun h => h3 h.symm),
      List.getElem?_set_ne (fun h => h2 h.symm),
      List.getElem?_set_ne (fun h => h1 h.symm)]

/-- A freshly allocated buffer carries the report identifier at offset 0. -/
theorem freshBuffer_head (sz : Nat) (hpos : 0 < sz) :
    (freshBuffer sz)[0]? = some (LIGHTING_REPORT_ID : Int) := by
  unfold freshBuffer
  rw [List.getElem?_set_eq_of_lt]
  rw [List.length_replicate]
  exact hpos

/-- Every successful buffer acquisition either reuses a non-empty raw
snapshot verbatim or allocates a fresh identifier-tagged buffer of positive
declared length (empty snapshot or raising retrieval). -/
theorem acquire_buffer_gotBuf_cases (t : HidReport) (buffer : List Int) (ms : List Msg)
    (h : acquire_buffer t = .gotBuf buffer ms) :
    (∃ raw, t.raw_data = .ok raw ∧ raw ≠ [] ∧ buffer = raw)
    ∨ (∃ sz, 0 < sz ∧ buffer = freshBuffer sz
        ∧ (t.raw_data = .ok [] ∨ ∃ e, t.raw_data = .error e)) := by
  obtain ⟨rid, raw, dlen, sres⟩ := t
  cases raw with
  | error e =>
    cases dlen with
    | error e2 => simp [acquire_buffer, acquire_fallback] at h
    | ok sz =>
      by_cases hsz : sz ≤ 0
      · simp [acquire_buffer, acquire_fallback, hsz] at h
      · right
        refine ⟨sz, by omega, ?_, Or.inr ⟨e, rfl⟩⟩
        simp [acquire_buffer, acquire_fallback, hsz] at h
        exact h.1.symm
  | ok rawl =>
    cases rawl with
    | nil =>
      cases dlen with
      | error e2 => simp [acquire_buffer, acquire_fallback] at h
      | ok sz =>
        by_cases hsz : 0 < sz
        · right
          refine ⟨sz, hsz, ?_, Or.inl rfl⟩
          simp [acquire_buffer, hsz] at h
          exact h.1.symm
        · simp [acquire_buffer, hsz, Nat.le_of_not_lt hsz] at h
    | cons x xs =>
      left
      refine ⟨x :: xs, rfl, by simp, ?_⟩
      simp [acquire_buffer] at h
      exact h.1.symm

/-- Claim C1: whenever set_color returns true on in-range components, the
single transmitted buffer holds r, g, b at offsets 1, 2, 3; its offset 0 is
the lighting identifier 7 when the buffer was freshly allocated (empty
snapshot or raising retrieval), while a reused non-empty snapshot keeps its
own offset-0 byte. -/
theorem set_color_success_buffer_contents (device : HidDevice) (r g b : Int)
    (target_report : HidReport)
    (hr : 0 ≤ r ∧ r < 256) (hg : 0 ≤ g ∧ g < 256) (hb : 0 ≤ b ∧ b < 256)
    (htarget : target_of device = some target_report)
    (hret : (set_color device r g b).ret = true) :
    ∃ buffer,
      (set_color device r g b).sent = [buffer]
      ∧ buffer[RED_BYTE_INDEX]? = some r
      ∧ buffer[GREEN_BYTE_INDEX]? = some g
      ∧ buffer[BLUE_BYTE_INDEX]? = some b
      ∧ (∀ raw, target_report.raw_data = .ok raw → raw ≠ [] →
          buffer[0]? = raw[0]?)
      ∧ ((target_report.raw_data = .ok [] ∨ ∃ e, target_report.raw_data = .error e) →
          buffer[0]? = some (LIGHTING_REPORT_ID : Int)) := by
  cases ho : device.open_res with
  | error e =>
    unfold set_color set_colorWith at hret
    rw [ho] at hret
    simp at hret
  | ok u =>
    obtain ⟨⟩ := u
    cases hacq : acquire_buffer target_report with
    | fail ms =>
      have hmain := set_color_failBuf device r g b target_report ms ho htarget hacq
      rw [hmain] at hret
      simp at hret
    | gotBuf buffer ms =>
      have hmain := set_color_gotBuf device r g b target_report buffer ms ho htarget hacq
      rw [hmain] at hret ⊢
      dsimp only at hret ⊢
      by_cases hbnd : RED_BYTE_INDEX < buffer.length ∧ GREEN_BYTE_INDEX < buffer.length ∧
          BLUE_BYTE_INDEX < buffer.length
      · cases hs : target_report.send_res with
        | error e =>
          unfold patch_and_send at hret
          rw [if_pos hbnd, if_pos hr, if_pos hg, if_pos hb, hs] at hret
          simp at hret
        | ok u2 =>
          have hps : patch_and_send target_report buffer ms r g b verbose =
              (true,
                [((buffer.set RED_BYTE_INDEX r).set GREEN_BYTE_INDEX g).set
                  BLUE_BYTE_INDEX b],
                ms ++ [Msg.colorSent]) := by
            unfold patch_and_send verbose
            rw [if_pos hbnd, if_pos hr, if_pos hg, if_pos hb, hs]
            simp
          rw [hps]
          refine ⟨((buffer.set RED_BYTE_INDEX r).set GREEN_BYTE_INDEX g).set
            BLUE_BYTE_INDEX b, rfl, ?_, ?_, ?_, ?_, ?_⟩
          · rw [List.getElem?_set_ne (by decide), List.getElem?_set_ne (by decide),
              List.getElem?_set_eq_of_lt r hbnd.1]
          · rw [List.getElem?_set_ne (by decide),
              List.getElem?_set_eq_of_lt g (by simp [List.length_set, hbnd.2.1])]
          · rw [List.getElem?_set_eq_of_lt b (by simp [List.length_set, hbnd.2.2])]
          · intro raw hraw hne
            rw [List.getElem?_set_ne (by decide), List.getElem?_set_ne (by decide),
              List.getElem?_set_ne (by decide)]
            rcases acquire_buffer_gotBuf_cases target_report buffer ms hacq with
              ⟨raw0, hraw0, hne0, hbeq⟩ | ⟨sz, hpos, hbeq, hcase⟩
            · rw [hraw0] at hraw
              injection hraw with hraweq
              rw [hbeq, hraweq]
            · rcases hcase with hnil | ⟨e, herr⟩
              · rw [hnil] at hraw
                injection hraw with hraweq
                exact absurd hraweq.symm hne
              · rw [herr] at hraw
                cases hraw
          · intro hcase0
            rw [List.getElem?_set_ne (by decide), List.getElem?_set_ne (by decide),
              List.getElem?_set_ne (by decide)]
            rcases acquire_buffer_gotBuf_cases target_report buffer ms hacq with
              ⟨raw0, hraw0, hne0, hbeq⟩ | ⟨sz, hpos, hbeq, hcase⟩
            · rcases hcase0 with hnil | ⟨e, herr⟩
              · rw [hraw0] at hnil
                injection hnil with hnileq
                exact absurd hnileq hne0
              · rw [hraw0] at herr
                cases herr
            · rw [hbeq]
              exact freshBuffer_head sz hpos
      · unfold patch_and_send at hret
        rw [if_neg hbnd] at hret
        simp at hret

/-! Concrete devices exercising the different paths of the script. -/

def raw32 : List Int := (9 : Int) :: List.replicate 31 (4 : Int)

def rep_live : HidReport :=
  { report_id := 7, raw_data := .ok raw32, declared_len := .ok 32, send_res := .ok () }

def dev_live : HidDevice :=
  { vendor_id := 0x046d, product_id := 0xc229, open_res := .ok (),
    feature_reports := .ok [rep_live], output_reports := .ok [],
    input_reports := .ok [] }

def rep_short : HidReport :=
  { report_id := 7, raw_data := .ok [(7 : Int), 0], declared_len := .ok 2,
    send_res := .ok () }

def dev_short : HidDevice := { dev_live with feature_reports := .ok [rep_short] }

def rep_other : HidReport :=
  { report_id := 5, raw_data := .ok [(5 : Int)], declared_len := .ok 1,
    send_res := .ok () }

def dev_no_lighting : HidDevice := { dev_live with feature_reports := .ok [rep_other] }

def rep_fallback : HidReport :=
  { report_id := 7, raw_data := .error "read failed", declared_len := .ok 8,
    send_res := .ok () }

def dev_fallback : HidDevice := { dev_live with feature_reports := .ok [rep_fallback] }

def dev_badenum : HidDevice := { dev_live with feature_reports := .error "enum failed" }

theorem set_color_success_buffer_contents_witness :
    ∃ buffer, (set_color dev_live 10 20 30).sent = [buffer]
      ∧ buffer[RED_BYTE_INDEX]? = some (10 : Int)
      ∧ buffer[GREEN_BYTE_INDEX]? = some (20 : Int)
      ∧ buffer[BLUE_BYTE_INDEX]? = some (30 : Int)
      ∧ buffer[0]? = raw32[0]? := by
  obtain ⟨buffer, h1, h2, h3, h4, h5, h6⟩ :=
    set_color_success_buffer_contents dev_live 10 20 30 rep_live
      (by decide) (by decide) (by decide) rfl rfl
  exact ⟨buffer, h1, h2, h3, h4, h5 raw32 rfl (by decide)⟩

theorem set_color_snapshot32_end_to_end_witness :
    (set_color dev_live 1 2 3).ret = true
    ∧ (set_color dev_live 1 2 3).sent =
        [((raw32.set RED_BYTE_INDEX 1).set GREEN_BYTE_INDEX 2).set BLUE_BYTE_INDEX 3] := by
  have h := set_color_snapshot32_end_to_end dev_live 1 2 3 rep_live raw32
    rfl rfl rfl (by decide) rfl (by decide) (by decide) (by decide)
  exact ⟨h.1, h.2.1⟩

theorem set_color_report_missing_witness :
    (set_color dev_no_lighting 1 2 3).ret = false
    ∧ (set_color dev_no_lighting 1 2 3).msgs =
        [Msg.reportNotFound LIGHTING_REPORT_ID, Msg.suggestInspect] := by
  have h := set_color_report_missing dev_no_lighting 1 2 3 [rep_other] rfl rfl
    (by decide)
  exact ⟨h.1, h.2.2.1⟩

theorem set_color_offsets_out_of_range_witness :
    (set_color dev_short 1 2 3).ret = false
    ∧ Msg.offsetsOutOfRange RED_BYTE_INDEX GREEN_BYTE_INDEX BLUE_BYTE_INDEX
        ([(7 : Int), 0]).length ∈ (set_color dev_short 1 2 3).msgs := by
  have h := set_color_offsets_out_of_range dev_short 1 2 3 rep_short
    [(7 : Int), 0] [] rfl rfl rfl (by decide)
  exact ⟨h.1, h.2.2⟩

theorem set_color_buffer_fallbacks_witness :
    acquire_buffer rep_fallback =
      .gotBuf (freshBuffer 8) [Msg.errorGettingRaw "read failed"]
    ∧ Msg.errorGettingRaw "read failed" ∈ (set_color dev_fallback 1 2 3).msgs := by
  have h := set_color_buffer_fallbacks dev_fallback 1 2 3 rep_fallback rfl rfl
  have h2 := h.2 "read failed" rfl
  exact ⟨(h2.2.1 8 rfl (by decide)).1, h2.1⟩

theorem inspect_mode_exits_zero_witness :
    (main [dev_badenum] 1 2 3 true).exitCode = 0
    ∧ Msg.inspectError "enum failed" ∈ (main [dev_badenum] 1 2 3 true).msgs := by
  have h := inspect_mode_exits_zero [dev_badenum] 1 2 3 dev_badenum rfl
  exact ⟨h.1, h.2.2 "enum failed" rfl rfl⟩

theorem set_color_component_out_of_range_witness :
    (set_color dev_live 300 2 3).ret = false
    ∧ (set_color dev_live 300 2 3).closes = 1
    ∧ Msg.setColorError byteRangeError ∈ (set_color dev_live 300 2 3).msgs := by
  have h := set_color_component_out_of_range dev_live 300 2 3 rep_live raw32 []
    rfl rfl rfl (by decide) (Or.inl (by decide))
  exact ⟨h.1, h.2.2.1, h.2.2.2⟩

end JamG19
